import Mathlib

/-!
Verification of the ReadingChatbot webhook (src/main.py) against its
natural-language specification.  The Python source is shallowly embedded:
pure helpers become Lean functions, the pandas catalog becomes a list of
records, and the external services (langdetect, GoogleTranslator) and the
ambient randomness of `DataFrame.sample` become explicit oracle parameters.
A Python call that raises is modelled as `Option.none`.
-/

namespace ReadingChatbot

/-! ## Calendar arithmetic for the Excel serial-date conversion

`datetime(1899, 12, 30) + timedelta(days=num)` followed by
`strftime("%d/%m/%Y")`, on the proleptic Gregorian calendar.  We use the
standard civil-from-days / days-from-civil algorithms over `Nat` (all dates
involved are Common Era, so no negative values arise). -/

/-- Day number of a Gregorian civil date (y, m, d), counted from the start of
era 0 (0000-03-01 based eras of 400 years = 146097 days). -/
def dayNumber (y m d : Nat) : Nat :=
  let yy := if m ≤ 2 then y - 1 else y
  let era := yy / 400
  let yoe := yy % 400
  let mp := (m + 9) % 12
  let doy := (153 * mp + 2) / 5 + d - 1
  let doe := yoe * 365 + yoe / 4 - yoe / 100 + doy
  era * 146097 + doe

/-- Inverse of `dayNumber`: the civil date (y, m, d) of a day number. -/
def civilOfDayNumber (g : Nat) : Nat × Nat × Nat :=
  let era := g / 146097
  let doe := g % 146097
  let yoe := (doe - doe / 1460 + doe / 36524 - doe / 146096) / 365
  let y := yoe + era * 400
  let doy := doe - (365 * yoe + yoe / 4 - yoe / 100)
  let mp := (5 * doy + 2) / 153
  let d := doy - (153 * mp + 2) / 5 + 1
  let m := if mp < 10 then mp + 3 else mp - 9
  (if m ≤ 2 then y + 1 else y, m, d)

/-- Zero-padded two-digit rendering, as strftime `%d` / `%m`. -/
def pad2 (n : Nat) : String :=
  if n < 10 then "0" ++ toString n else toString n

/-- strftime `"%d/%m/%Y"` (years here are all four-digit). -/
def formatDMY (y m d : Nat) : String :=
  pad2 d ++ "/" ++ pad2 m ++ "/" ++ toString y

/-- The date rendered by `datetime(1899, 12, 30) + timedelta(days=n)`. -/
def excelSerialToDMY (n : Nat) : String :=
  let c := civilOfDayNumber (dayNumber 1899 12 30 + n)
  formatDMY c.1 c.2.1 c.2.2

/-! ## The Excel cell values fed to `excel_date_to_str`

The Python function branches on the runtime type of its argument:
NaN/None, `str`, `int`/`float` (coerced with `int(...)`, so we carry the
already-truncated integer), and `datetime`. -/

/-- Python `str.strip()`: remove leading and trailing whitespace. -/
def pyStrip (s : String) : String :=
  ⟨((s.toList.dropWhile Char.isWhitespace).reverse.dropWhile Char.isWhitespace).reverse⟩

inductive CellValue where
  | na : CellValue
  | str : String → CellValue
  | int : Int → CellValue
  | dt : Nat → Nat → Nat → CellValue
deriving DecidableEq, Repr

/-- Embedding of `excel_date_to_str` (src/main.py lines 13-47):
empty/NaN → `""`; strings are stripped and kept; an integer in
`[1000, 2100]` is kept as a year, one in the open range `(30, 60000)` is
converted via the 1899-12-30 epoch to `DD/MM/YYYY`, anything else falls
back to its decimal string; a datetime renders as `DD/MM/YYYY`. -/
def excel_date_to_str : CellValue → String
  | .na => ""
  | .str s => pyStrip s
  | .int n =>
      if 1000 ≤ n ∧ n ≤ 2100 then toString n
      else if 30 < n ∧ n < 60000 then excelSerialToDMY n.toNat
      else toString n
  | .dt y m d => formatDMY y m d

/-! ## Catalog records and the substring store

One row of `books_df` (columns of Books.xlsx as read with `dtype=str`).
All cells are strings; `published_date` has already been passed through
`excel_date_to_str` at load time. -/

structure BookRecord where
  title : String
  author : String
  genre : String
  publisher : String
  published_date : String
  pages : String
  average_rating : String
  description : String
  thumbnail : String
deriving DecidableEq, Repr

/-- ASCII lowercase of one character (Python `str.lower()`, restricted to
the ASCII range our theorems exercise). -/
def asciiLower (c : Char) : Char :=
  if 65 ≤ c.toNat ∧ c.toNat ≤ 90 then Char.ofNat (c.toNat + 32) else c

/-- ASCII uppercase of one character. -/
def asciiUpper (c : Char) : Char :=
  if 97 ≤ c.toNat ∧ c.toNat ≤ 122 then Char.ofNat (c.toNat - 32) else c

/-- Python `str.lower()`. -/
def pyLower (s : String) : String := ⟨s.toList.map asciiLower⟩

/-- Python `str.title()`: a letter is uppercased when the previous character
is not a letter, lowercased otherwise; used by the author/genre renderings. -/
def pyTitleAux : Bool → List Char → List Char
  | _, [] => []
  | prevAlpha, c :: cs =>
      if c.isAlpha then
        (if prevAlpha then asciiLower c else asciiUpper c) :: pyTitleAux true cs
      else
        c :: pyTitleAux false cs

/-- Python `str.title()` on a string. -/
def pyTitle (s : String) : String := ⟨pyTitleAux false s.toList⟩

/-- Contiguous-substring test on character lists: `needle` occurs in `hay`
starting at some position. -/
def isInfixOfB (needle : List Char) : List Char → Bool
  | [] => needle.isEmpty
  | c :: t => needle.isPrefixOf (c :: t) || isInfixOfB needle t

/-- `Series.str.contains(re.escape(needle), regex=True)` on one cell: since
the needle is escaped, this is a literal contiguous-substring test. -/
def strContains (hay needle : String) : Bool :=
  isInfixOfB needle.toList hay.toList

/-- The dataframe filter
`books_df[books_df[field].str.lower().str.contains(re.escape(needle), na=False, regex=True)]`:
keep, in catalog order, the records whose lowercased field contains the
needle. -/
def find_by_field (catalog : List BookRecord) (field : BookRecord → String)
    (needle : String) : List BookRecord :=
  catalog.filter (fun r => strContains (pyLower (field r)) needle)

/-- `books_df.sample(1).iloc[0]`, with the ambient randomness made explicit
as an index draw `rng`; on an empty catalog `sample(1)` raises
(`ValueError`), modelled as `none`. -/
def sampleOne (catalog : List BookRecord) (rng : Nat) : Option BookRecord :=
  catalog[rng % catalog.length]?

/-- `params.get(key, "")` on the Dialogflow parameter map. -/
def getParam (params : List (String × String)) (key : String) : String :=
  match params.find? (fun p => p.1 == key) with
  | some p => p.2
  | none => ""

/-! ## External services as oracles

`langdetect.detect` and the two `GoogleTranslator(...).translate` calls are
external; each is modelled as a function returning `none` exactly when the
Python call raises. -/

structure Oracles where
  det : String → Option String
  toEn : String → Option String
  back : String → String → Option String

/-- Embedding of `translate_to_english` (lines 61-67): delegate to the
external capability; on failure return the input text unchanged. -/
def translate_to_english (toEn : String → Option String) (text : String) : String :=
  match toEn text with
  | some t => t
  | none => text

/-- Embedding of `translate_back` (lines 69-77): identity when the target
language is `"en"`, otherwise delegate; on failure return the input text. -/
def translate_back (back : String → String → Option String)
    (text targetLang : String) : String :=
  if targetLang = "en" then text
  else
    match back targetLang text with
    | some t => t
    | none => text

/-- One character of the override class `[A-Za-z0-9\s\?\!\'\,\.]`:
ASCII letters, digits, whitespace, and `? ! ' , .` (code points 63, 33,
39, 44, 46).  Note the class has no hyphen. -/
def overrideChar (c : Char) : Bool :=
  let n := c.toNat
  (65 ≤ n && n ≤ 90) || (97 ≤ n && n ≤ 122) || (48 ≤ n && n ≤ 57) ||
  n == 32 || n == 9 || n == 10 || n == 13 || n == 11 || n == 12 ||
  n == 63 || n == 33 || n == 39 || n == 44 || n == 46

/-- `re.fullmatch(r"[A-Za-z0-9\s\?\!\'\,\.]+", text)`: non-empty and every
character in the class. -/
def asciiSafeFullmatch (text : String) : Bool :=
  !text.toList.isEmpty && text.toList.all overrideChar

/-- Embedding of `safe_detect_language` (lines 82-92): detector failure
defaults to `"en"`; a non-English verdict on a string fully matching the
ASCII class is overridden to `"en"`. -/
def safe_detect_language (det : String → Option String) (text : String) : String :=
  match det text with
  | none => "en"
  | some lang =>
      if lang = "en" then lang
      else if asciiSafeFullmatch text then "en"
      else lang

/-! ## The intent router

The body of `webhook` (lines 104-315) between parameter extraction and the
final back-translation: an `elif` chain on the intent name.  `routeT`
additionally records every needle the handler passes to the dataframe
substring match, so that "the store is reached with needle x" is a stated
fact of the embedding rather than a side remark.  A `none` response models
an uncaught Python exception (the only source is `sample(1)` on an empty
dataframe). -/

/-- Python `"\n".join`. -/
def joinNL : List String → String
  | [] => ""
  | [s] => s
  | s :: rest => s ++ "\n" ++ joinNL rest

/-- The `search_book` found-a-match template (lines 149-158), byte-exact
including the trailing blanks of its first line. -/
def foundBookText (r : BookRecord) : String :=
  "I found a book 📕 for you!            \nTitle: " ++ r.title ++
  "\nAuthor: " ++ r.author ++ "\nGenre: " ++ r.genre ++
  "\nPublisher: " ++ r.publisher ++ "\nPublished Date: " ++ r.published_date ++
  "\nPages: " ++ r.pages ++ "\nAverage Rating: " ++ r.average_rating ++
  "\nDescription: " ++ r.description ++ "\nThumbnail: " ++ r.thumbnail

/-- The `search_book` no-match fallback template (lines 161-170); note it
has no Genre line and a blank after the first period. -/
def noBookFallbackText (title : String) (r : BookRecord) : String :=
  "Sorry, I couldn’t find a book titled '" ++ title ++
  "'. \nHow about this one instead?\nTitle: " ++ r.title ++
  "\nAuthor: " ++ r.author ++
  "\nPublisher: " ++ r.publisher ++ "\nPublished Date: " ++ r.published_date ++
  "\nPages: " ++ r.pages ++ "\nAverage Rating: " ++ r.average_rating ++
  "\nDescription: " ++ r.description ++ "\nThumbnail: " ++ r.thumbnail

/-- The `search_book` blank-title recommendation template (lines 173-182). -/
def recommendBookText (r : BookRecord) : String :=
  "I recommend this book for you:\nTitle: " ++ r.title ++
  "\nAuthor: " ++ r.author ++ "\nGenre: " ++ r.genre ++
  "\nPublisher: " ++ r.publisher ++ "\nPublished Date: " ++ r.published_date ++
  "\nPages: " ++ r.pages ++ "\nAverage Rating: " ++ r.average_rating ++
  "\nDescription: " ++ r.description ++ "\nThumbnail: " ++ r.thumbnail

/-- The fixed default apology `response_text` is initialised to (line 125). -/
def defaultApology : String := "Sorry, I didn’t get that."

/-- The router with a trace of store needles: embedding of the intent
`elif` chain of `webhook`, returning (response, needles passed to the
dataframe substring match). -/
def routeT (intent : String) (params : List (String × String))
    (catalog : List BookRecord) (rng : Nat) : Option String × List String :=
  match intent with
  | "greet" =>
    (some "Hello! How can I help you with books today?", [])
  | "goodbye" =>
    (some "Goodbye! Happy reading 📖", [])
  | "search_book" =>
    let title := pyLower (getParam params "book_title")
    if title = "" then
      ((sampleOne catalog rng).map recommendBookText, [])
    else
      match find_by_field catalog BookRecord.title title with
      | r :: _ => (some (foundBookText r), [title])
      | [] => ((sampleOne catalog rng).map (noBookFallbackText title), [title])
  | "search_author" =>
    let author := pyLower (getParam params "author")
    if author = "" then
      (some "Please provide an author name.", [])
    else
      match find_by_field catalog BookRecord.author author with
      | r :: rest =>
          (some ("Books by " ++ pyTitle author ++ ":\n" ++
            joinNL (((r :: rest).map BookRecord.title).take 5)), [author])
      | [] => (some ("Sorry, I couldn’t find books from " ++ author ++ "."), [author])
  | "book_page" =>
    let title := pyLower (getParam params "book_title")
    match find_by_field catalog BookRecord.title title with
    | r :: _ => (some ("'" ++ r.title ++ "' has " ++ r.pages ++ " pages."), [title])
    | [] => (some ("Sorry, I couldn’t find page count for '" ++ title ++ "'."), [title])
  | "search_by_genre" =>
    let genre := pyLower (getParam params "genre")
    match find_by_field catalog BookRecord.genre genre with
    | r :: rest =>
        (some ("Here are some " ++ pyTitle genre ++ " books:\n" ++
          joinNL (((r :: rest).map BookRecord.title).take 5)), [genre])
    | [] => (some ("Sorry, I couldn’t find books in the " ++ genre ++ " genre."), [genre])
  | "get_book_genre" =>
    let title := pyLower (getParam params "book_title")
    match find_by_field catalog BookRecord.title title with
    | r :: _ => (some ("'" ++ r.title ++ "' belongs to the " ++ r.genre ++ " genre."), [title])
    | [] => (some ("Sorry, I couldn’t find genre for '" ++ title ++ "'."), [title])
  | "book_description" =>
    let title := pyLower (getParam params "book_title")
    match find_by_field catalog BookRecord.title title with
    | r :: _ => (some ("'" ++ r.title ++ "' description: " ++ r.description), [title])
    | [] => (some ("Sorry, I couldn’t find a description for '" ++ title ++ "'."), [title])
  | "published_date" =>
    let title := pyLower (getParam params "book_title")
    match find_by_field catalog BookRecord.title title with
    | r :: _ => (some ("'" ++ r.title ++ "' was published on " ++ r.published_date ++ "."), [title])
    | [] => (some ("Sorry, I couldn’t find the published date for '" ++ title ++ "'."), [title])
  | "publisher" =>
    let title := pyLower (getParam params "book_title")
    match find_by_field catalog BookRecord.title title with
    | r :: _ => (some ("The publisher of '" ++ r.title ++ "' is " ++ r.publisher ++ "."), [title])
    | [] => (some ("Sorry, I couldn’t find the publisher for '" ++ title ++ "'."), [title])
  | "average_rating" =>
    let title := pyLower (getParam params "book_title")
    match find_by_field catalog BookRecord.title title with
    | r :: _ => (some ("'" ++ r.title ++ "' has an average rating of " ++ r.average_rating ++ "."), [title])
    | [] => (some ("Sorry, I couldn’t find ratings for '" ++ title ++ "'."), [title])
  | "thumbnail" =>
    let title := pyLower (getParam params "book_title")
    match find_by_field catalog BookRecord.title title with
    | r :: _ => (some ("Here is the cover of '" ++ r.title ++ "': " ++ r.thumbnail), [title])
    | [] => (some ("Sorry, I couldn’t find a cover for '" ++ title ++ "'."), [title])
  | "bot_challenge" =>
    (some "I’m a book assistant bot 🤖, here to help you discover books!", [])
  | _ =>
    (some defaultApology, [])

/-- The rendered response text of the router, before back-translation. -/
def route (intent : String) (params : List (String × String))
    (catalog : List BookRecord) (rng : Nat) : Option String :=
  (routeT intent params catalog rng).1

/-- The needles the router passed to the store's substring match. -/
def storeNeedles (intent : String) (params : List (String × String))
    (catalog : List BookRecord) (rng : Nat) : List String :=
  (routeT intent params catalog rng).2

/-! ## The full request handler -/

/-- The fields of the inbound Dialogflow request that `webhook` reads. -/
structure WebhookRequest where
  queryText : String
  intentName : String
  parameters : List (String × String)

/-- The intermediate values of one `webhook` invocation. -/
structure WebhookTrace where
  detected : String
  translatedQuery : String
  rendered : Option String
  final : Option String

/-- Embedding of the POST handler `webhook` (lines 104-315) with its locals
exposed: detect the language of the raw query, translate the query to
English (used only for the debug log), route on (intent, parameters),
then back-translate the response.  `final = none` models an uncaught
exception (no `fulfillmentText` produced). -/
def webhookTrace (o : Oracles) (catalog : List BookRecord) (rng : Nat)
    (req : WebhookRequest) : WebhookTrace :=
  let detected := safe_detect_language o.det req.queryText
  let translated := translate_to_english o.toEn req.queryText
  let rendered := route req.intentName req.parameters catalog rng
  { detected := detected
    translatedQuery := translated
    rendered := rendered
    final := rendered.map (fun t => translate_back o.back t detected) }

/-- The `fulfillmentText` produced by one `webhook` invocation
(`none` = the handler raised instead of answering). -/
def webhook (o : Oracles) (catalog : List BookRecord) (rng : Nat)
    (req : WebhookRequest) : Option String :=
  (webhookTrace o catalog rng req).final

/-! ## The top-rated listing (modelled from the spec)

src/main.py contains no top-rated intent; the spec describes the
repository's top-rated listing (`top_n_by_rating(5)` and its fixed-format
leaderboard) as one of the router's operations, living in iterations of
the webhook that are not under src/.  The definitions below are therefore
modelled from the spec's words rather than translated from src/. -/

/-- Value of a digit list read in base 10. -/
def digitsVal (cs : List Char) : Nat :=
  cs.foldl (fun n c => n * 10 + (c.toNat - 48)) 0

/-- Split a character list on `.` (code point 46). -/
def splitOnDot : List Char → List (List Char)
  | [] => [[]]
  | c :: t =>
      if c.toNat = 46 then [] :: splitOnDot t
      else
        match splitOnDot t with
        | [] => [[c]]
        | g :: gs => (c :: g) :: gs

/-- Modelled from the spec: numeric reading of the `average_rating` cell —
"numeric, may be absent/unparseable" — as digits with at most one decimal
point; `none` marks an absent or unparseable rating. -/
def parseRating (s : String) : Option ℚ :=
  match splitOnDot s.toList with
  | [w] =>
      if w ≠ [] ∧ w.all Char.isDigit then some (digitsVal w : ℚ) else none
  | [w, f] =>
      if w ≠ [] ∧ f ≠ [] ∧ w.all Char.isDigit ∧ f.all Char.isDigit then
        some ((digitsVal w : ℚ) + (digitsVal f : ℚ) / (10 ^ f.length : ℚ))
      else none
  | _ => none

/-- Modelled from the spec: the ranking key of a record, "treating
unparseable ratings as the lowest possible value" (`⊥`). -/
def ratingKey (r : BookRecord) : WithBot ℚ :=
  match parseRating r.average_rating with
  | some q => (q : WithBot ℚ)
  | none => ⊥

/-- `a` ranks at least as high as `b` (descending rating order). -/
def ratingGe (a b : BookRecord) : Prop := ratingKey b ≤ ratingKey a

instance : DecidableRel ratingGe :=
  fun a b => inferInstanceAs (Decidable (ratingKey b ≤ ratingKey a))

instance : IsTotal BookRecord ratingGe :=
  ⟨fun a b => le_total (ratingKey b) (ratingKey a)⟩

instance : IsTrans BookRecord ratingGe :=
  ⟨fun _ _ _ hab hbc => le_trans hbc hab⟩

/-- Modelled from the spec: `top_n_by_rating(n)` — "sorts by average_rating
descending, treating unparseable ratings as the lowest possible value;
ties keep catalog insertion order (stable sort required)"; `n` greater
than the catalog size returns the full catalog. -/
def top_n_by_rating (n : Nat) (catalog : List BookRecord) : List BookRecord :=
  (List.insertionSort ratingGe catalog).take n

/-- Modelled from the spec: one leaderboard entry (title, author, rating). -/
def topRatedLine (r : BookRecord) : String :=
  r.title ++ " by " ++ r.author ++ " — rating " ++ r.average_rating

/-- Modelled from the spec: the top-rated listing response — ranks the
full catalog by `top_n_by_rating(5)` and renders one line per entry; an
empty catalog is reported as an explicit "dataset is empty" condition. -/
def topRatedResponse (catalog : List BookRecord) : String :=
  match catalog with
  | [] => "The dataset is empty."
  | _ :: _ => joinNL ((top_n_by_rating 5 catalog).map topRatedLine)

/-! ## Concrete fixtures for witnesses and counterexamples -/

def bookA : BookRecord :=
  ⟨"Emma", "Jane Austen", "Fiction", "Murray", "1815", "474", "4.0",
   "A novel of manners.", "urlA"⟩

def bookB : BookRecord :=
  ⟨"Dune", "Frank Herbert", "Science Fiction", "Chilton", "01/08/1965",
   "412", "4.5", "A desert planet.", "urlB"⟩

def bookC : BookRecord :=
  ⟨"Iliad", "Homer", "Epic", "Ancient", "1598", "683", "n/a",
   "A war poem.", "urlC"⟩

/-- Oracles on which every external call raises. -/
def failingOracles : Oracles := ⟨fun _ => none, fun _ => none, fun _ _ => none⟩

/-- Oracles whose detector always reports English and whose translators
always raise. -/
def enOracles : Oracles := ⟨fun _ => some "en", fun _ => none, fun _ _ => none⟩

/-! ## Claims about the date normalizer -/

/-- C1, counterexample: the claim says every numeric value ≤ 59 falls
through as its decimal string; the code converts 31 (it is above the
code's threshold of 30) to the date 30/01/1900. -/
theorem C1_counterexample :
    excel_date_to_str (.int 31) = "30/01/1900" ∧
    excel_date_to_str (.int 31) ≠ "31" := by
  decide

/-- C1 (amended): the fall-through band of the date normalizer is
`0 ≤ v ≤ 30`, not `0 ≤ v ≤ 59`: a numeric day-count is rendered as its
decimal string for `0 ≤ v ≤ 30` and is converted to a `DD/MM/YYYY` date
(anchored at epoch day 0 = 1899-12-30) for every count strictly greater
than 30 and up to 59 (and beyond, below 60000 and outside the year band
1000–2100). -/
theorem C1_fallthrough_threshold :
    (∀ v : Int, 0 ≤ v → v ≤ 30 → excel_date_to_str (.int v) = toString v) ∧
    (∀ v : Int, 30 < v → v ≤ 59 →
      excel_date_to_str (.int v) = excelSerialToDMY v.toNat) := by
  constructor
  · intro v h0 h1
    show (if 1000 ≤ v ∧ v ≤ 2100 then toString v
          else if 30 < v ∧ v < 60000 then excelSerialToDMY v.toNat
          else toString v) = toString v
    split_ifs with h2 h3
    · rfl
    · omega
    · rfl
  · intro v h0 h1
    show (if 1000 ≤ v ∧ v ≤ 2100 then toString v
          else if 30 < v ∧ v < 60000 then excelSerialToDMY v.toNat
          else toString v) = excelSerialToDMY v.toNat
    split_ifs with h2 h3
    · omega
    · rfl
    · omega

/-- C1, witness: the amended theorem applied at 5 (falls through) and at
45 (converted; 1899-12-30 + 45 days = 1900-02-13). -/
theorem C1_fallthrough_threshold_witness :
    excel_date_to_str (.int 5) = "5" ∧
    excel_date_to_str (.int 45) = "13/02/1900" := by
  constructor
  · have h := C1_fallthrough_threshold.1 5 (by decide) (by decide)
    rw [h]; rfl
  · have h := C1_fallthrough_threshold.2 45 (by decide) (by decide)
    rw [h]; decide

/-- C2, counterexample: the claim expects `normalize(60) = "29/02/1900"`;
the code computes `datetime(1899,12,30) + 60 days`, which in the real
(proleptic Gregorian) calendar is 1900-02-28 — 1900 is not a leap year,
so the phantom Excel date 29/02/1900 is never produced. -/
theorem C2_counterexample :
    excel_date_to_str (.int 60) = "28/02/1900" ∧
    excel_date_to_str (.int 60) ≠ "29/02/1900" := by
  decide

/-- C2 (amended): the four test vectors with the day-count vector
corrected to what the 1899-12-30 anchor yields: normalize("2005") =
"2005", normalize("2000-09") = "2000-09", normalize(60) = "28/02/1900",
and normalize(5) = "5". -/
theorem C2_test_vectors :
    excel_date_to_str (.str "2005") = "2005" ∧
    excel_date_to_str (.str "2000-09") = "2000-09" ∧
    excel_date_to_str (.int 60) = "28/02/1900" ∧
    excel_date_to_str (.int 5) = "5" := by
  decide

/-! ## Claims about the translation gateway and locale detection -/

/-- C3: a failure (raise) of the external back-translation capability does
not propagate: the pipeline's final output equals the untranslated rendered
response text; likewise a failing to-English translation returns the
original input text. -/
theorem C3_translation_fail_open :
    (∀ (det toEn : String → Option String) (catalog : List BookRecord)
        (rng : Nat) (req : WebhookRequest),
      webhook ⟨det, toEn, fun _ _ => none⟩ catalog rng req =
        route req.intentName req.parameters catalog rng) ∧
    (∀ text : String, translate_to_english (fun _ => none) text = text) := by
  refine ⟨fun det toEn catalog rng req => ?_, fun text => rfl⟩
  show (route req.intentName req.parameters catalog rng).map
      (fun t => translate_back (fun _ _ => none) t
        (safe_detect_language det req.queryText)) =
    route req.intentName req.parameters catalog rng
  cases route req.intentName req.parameters catalog rng with
  | none => rfl
  | some t =>
      show some (translate_back (fun _ _ => none) t _) = some t
      unfold translate_back
      split <;> rfl

/-- C4, counterexample: the claim includes the hyphen in the override
punctuation set; the code's character class `[A-Za-z0-9\s\?\!\'\,\.]` has
no hyphen, so an ASCII input containing one keeps the detector's
non-English verdict. -/
theorem C4_counterexample :
    safe_detect_language (fun _ => some "fr") "Hello - world!" = "fr" ∧
    safe_detect_language (fun _ => some "fr") "Hello - world!" ≠ "en" := by
  decide

/-- C4 (amended): for every non-empty input consisting entirely of ASCII
letters, digits, whitespace and the punctuation set `? ! ' , .` (the
hyphen is not in the class), the detected locale is forced to `"en"`
regardless of the external detector's verdict (or failure). -/
theorem C4_ascii_override (det : String → Option String) (text : String)
    (h : asciiSafeFullmatch text = true) :
    safe_detect_language det text = "en" := by
  unfold safe_detect_language
  cases det text with
  | none => rfl
  | some lang =>
      by_cases hl : lang = "en"
      · simp [hl]
      · simp [hl, h]

/-- C4, witness: `detect_locale("Hello, world!")` is English even when the
underlying detector reports Chinese. -/
theorem C4_ascii_override_witness :
    safe_detect_language (fun _ => some "zh-cn") "Hello, world!" = "en" :=
  C4_ascii_override (fun _ => some "zh-cn") "Hello, world!" (by decide)

/-! ## Helper lemmas about the store and the router branches -/

lemma isInfixOfB_nil (l : List Char) : isInfixOfB [] l = true := by
  cases l <;> rfl

lemma strContains_empty_needle (hay : String) : strContains hay "" = true :=
  isInfixOfB_nil hay.toList

/-- An empty needle matches every record: the filter keeps the whole
catalog. -/
lemma find_by_field_empty_needle (catalog : List BookRecord)
    (field : BookRecord → String) : find_by_field catalog field "" = catalog := by
  unfold find_by_field
  simp [strContains_empty_needle]

/-- The `search_book` branch of the router. -/
lemma routeT_search_book (params : List (String × String))
    (catalog : List BookRecord) (rng : Nat) :
    routeT "search_book" params catalog rng =
      (if pyLower (getParam params "book_title") = "" then
        ((sampleOne catalog rng).map recommendBookText, [])
      else
        match find_by_field catalog BookRecord.title
            (pyLower (getParam params "book_title")) with
        | r :: _ => (some (foundBookText r), [pyLower (getParam params "book_title")])
        | [] =>
            ((sampleOne catalog rng).map
               (noBookFallbackText (pyLower (getParam params "book_title"))),
             [pyLower (getParam params "book_title")])) := rfl

/-- The `search_author` branch of the router. -/
lemma routeT_search_author (params : List (String × String))
    (catalog : List BookRecord) (rng : Nat) :
    routeT "search_author" params catalog rng =
      (if pyLower (getParam params "author") = "" then
        (some "Please provide an author name.", [])
      else
        match find_by_field catalog BookRecord.author
            (pyLower (getParam params "author")) with
        | r :: rest =>
            (some ("Books by " ++ pyTitle (pyLower (getParam params "author")) ++
              ":\n" ++ joinNL (((r :: rest).map BookRecord.title).take 5)),
             [pyLower (getParam params "author")])
        | [] =>
            (some ("Sorry, I couldn’t find books from " ++
               pyLower (getParam params "author") ++ "."),
             [pyLower (getParam params "author")])) := rfl

/-- The `book_page` branch of the router. -/
lemma routeT_book_page (params : List (String × String))
    (catalog : List BookRecord) (rng : Nat) :
    routeT "book_page" params catalog rng =
      (match find_by_field catalog BookRecord.title
          (pyLower (getParam params "book_title")) with
       | r :: _ =>
          (some ("'" ++ r.title ++ "' has " ++ r.pages ++ " pages."),
           [pyLower (getParam params "book_title")])
       | [] =>
          (some ("Sorry, I couldn’t find page count for '" ++
             pyLower (getParam params "book_title") ++ "'."),
           [pyLower (getParam params "book_title")])) := rfl

/-- The `get_book_genre` branch of the router. -/
lemma routeT_get_book_genre (params : List (String × String))
    (catalog : List BookRecord) (rng : Nat) :
    routeT "get_book_genre" params catalog rng =
      (match find_by_field catalog BookRecord.title
          (pyLower (getParam params "book_title")) with
       | r :: _ =>
          (some ("'" ++ r.title ++ "' belongs to the " ++ r.genre ++ " genre."),
           [pyLower (getParam params "book_title")])
       | [] =>
          (some ("Sorry, I couldn’t find genre for '" ++
             pyLower (getParam params "book_title") ++ "'."),
           [pyLower (getParam params "book_title")])) := rfl

/-- The `book_description` branch of the router. -/
lemma routeT_book_description (params : List (String × String))
    (catalog : List BookRecord) (rng : Nat) :
    routeT "book_description" params catalog rng =
      (match find_by_field catalog BookRecord.title
          (pyLower (getParam params "book_title")) with
       | r :: _ =>
          (some ("'" ++ r.title ++ "' description: " ++ r.description),
           [pyLower (getParam params "book_title")])
       | [] =>
          (some ("Sorry, I couldn’t find a description for '" ++
             pyLower (getParam params "book_title") ++ "'."),
           [pyLower (getParam params "book_title")])) := rfl

/-- The `published_date` branch of the router. -/
lemma routeT_published_date (params : List (String × String))
    (catalog : List BookRecord) (rng : Nat) :
    routeT "published_date" params catalog rng =
      (match find_by_field catalog BookRecord.title
          (pyLower (getParam params "book_title")) with
       | r :: _ =>
          (some ("'" ++ r.title ++ "' was published on " ++ r.published_date ++ "."),
           [pyLower (getParam params "book_title")])
       | [] =>
          (some ("Sorry, I couldn’t find the published date for '" ++
             pyLower (getParam params "book_title") ++ "'."),
           [pyLower (getParam params "book_title")])) := rfl

/-- The `publisher` branch of the router. -/
lemma routeT_publisher (params : List (String × String))
    (catalog : List BookRecord) (rng : Nat) :
    routeT "publisher" params catalog rng =
      (match find_by_field catalog BookRecord.title
          (pyLower (getParam params "book_title")) with
       | r :: _ =>
          (some ("The publisher of '" ++ r.title ++ "' is " ++ r.publisher ++ "."),
           [pyLower (getParam params "book_title")])
       | [] =>
          (some ("Sorry, I couldn’t find the publisher for '" ++
             pyLower (getParam params "book_title") ++ "'."),
           [pyLower (getParam params "book_title")])) := rfl

/-- The `average_rating` branch of the router. -/
lemma routeT_average_rating (params : List (String × String))
    (catalog : List BookRecord) (rng : Nat) :
    routeT "average_rating" params catalog rng =
      (match find_by_field catalog BookRecord.title
          (pyLower (getParam params "book_title")) with
       | r :: _ =>
          (some ("'" ++ r.title ++ "' has an average rating of " ++
             r.average_rating ++ "."),
           [pyLower (getParam params "book_title")])
       | [] =>
          (some ("Sorry, I couldn’t find ratings for '" ++
             pyLower (getParam params "book_title") ++ "'."),
           [pyLower (getParam params "book_title")])) := rfl

/-- The `thumbnail` branch of the router. -/
lemma routeT_thumbnail (params : List (String × String))
    (catalog : List BookRecord) (rng : Nat) :
    routeT "thumbnail" params catalog rng =
      (match find_by_field catalog BookRecord.title
          (pyLower (getParam params "book_title")) with
       | r :: _ =>
          (some ("Here is the cover of '" ++ r.title ++ "': " ++ r.thumbnail),
           [pyLower (getParam params "book_title")])
       | [] =>
          (some ("Sorry, I couldn’t find a cover for '" ++
             pyLower (getParam params "book_title") ++ "'."),
           [pyLower (getParam params "book_title")])) := rfl

/-! ## Claims about the router's blank-parameter handling -/

/-- C5, counterexample: the claim says no intent ever reaches the store
with an empty needle; the `book_page` branch has no blank check, so a
request with no `book_title` parameter passes the empty needle straight
to the dataframe substring match. -/
theorem C5_counterexample :
    storeNeedles "book_page" [] [bookA] 0 = [""] := by
  decide

/-- C5 (amended): only `search_book` and `search_author` handle a blank
parameter at the router level — `search_book` with a blank title falls
back to a random recommendation without touching the store, and
`search_author` with a blank author asks the caller for one — while the
field-specific intents (e.g. `book_page`) pass the blank needle to the
store. -/
theorem C5_blank_param_policies :
    (∀ (params : List (String × String)) (catalog : List BookRecord) (rng : Nat),
      getParam params "book_title" = "" →
        storeNeedles "search_book" params catalog rng = [] ∧
        route "search_book" params catalog rng =
          (sampleOne catalog rng).map recommendBookText) ∧
    (∀ (params : List (String × String)) (catalog : List BookRecord) (rng : Nat),
      getParam params "author" = "" →
        storeNeedles "search_author" params catalog rng = [] ∧
        route "search_author" params catalog rng =
          some "Please provide an author name.") := by
  constructor
  · intro params catalog rng h
    have ht : pyLower (getParam params "book_title") = "" := by rw [h]; rfl
    constructor
    · show (routeT "search_book" params catalog rng).2 = []
      rw [routeT_search_book, if_pos ht]
    · show (routeT "search_book" params catalog rng).1 = _
      rw [routeT_search_book, if_pos ht]
  · intro params catalog rng h
    have ht : pyLower (getParam params "author") = "" := by rw [h]; rfl
    constructor
    · show (routeT "search_author" params catalog rng).2 = []
      rw [routeT_search_author, if_pos ht]
    · show (routeT "search_author" params catalog rng).1 = _
      rw [routeT_search_author, if_pos ht]

/-- C5, witness: the two distinct blank-parameter policies at concrete
inputs. -/
theorem C5_blank_param_policies_witness :
    route "search_book" [] [bookA] 3 = some (recommendBookText bookA) ∧
    route "search_author" [] [bookA] 0 =
      some "Please provide an author name." := by
  constructor
  · have h := (C5_blank_param_policies.1 [] [bookA] 3 rfl).2
    rw [h]; rfl
  · exact (C5_blank_param_policies.2 [] [bookA] 0 rfl).2

/-! ## Claim about the book_page end-to-end behaviour -/

/-- C6, counterexample: the claim says the unmatched term is echoed back
in the original case as supplied ("Dune"); the code lowercases the
parameter before both matching and echoing, so the apology names
'dune'. -/
theorem C6_counterexample :
    webhook enOracles [bookA] 0
        ⟨"How many pages does Dune have?", "book_page",
         [("book_title", "Dune")]⟩ =
      some "Sorry, I couldn’t find page count for 'dune'." ∧
    webhook enOracles [bookA] 0
        ⟨"How many pages does Dune have?", "book_page",
         [("book_title", "Dune")]⟩ ≠
      some "Sorry, I couldn’t find page count for 'Dune'." := by
  decide

/-- C6 (amended): end-to-end (with the detected locale English, so that
back-translation is the identity), a `book_page` request with
`book_title = "Dune"` yields `"'<Title>' has <N> pages."` for the first
catalog record whose lowercased title contains "dune", and otherwise the
apology echoing the lowercased term:
`"Sorry, I couldn’t find page count for 'dune'."`. -/
theorem C6_book_page_end_to_end (o : Oracles) (catalog : List BookRecord)
    (rng : Nat) (q : String)
    (hdet : safe_detect_language o.det q = "en") :
    webhook o catalog rng ⟨q, "book_page", [("book_title", "Dune")]⟩ =
      some (match find_by_field catalog BookRecord.title "dune" with
        | r :: _ => "'" ++ r.title ++ "' has " ++ r.pages ++ " pages."
        | [] => "Sorry, I couldn’t find page count for 'dune'.") := by
  have hr : route "book_page" [("book_title", "Dune")] catalog rng =
      some (match find_by_field catalog BookRecord.title "dune" with
        | r :: _ => "'" ++ r.title ++ "' has " ++ r.pages ++ " pages."
        | [] => "Sorry, I couldn’t find page count for 'dune'.") := by
    show (routeT "book_page" [("book_title", "Dune")] catalog rng).1 = _
    rw [routeT_book_page]
    show (match find_by_field catalog BookRecord.title "dune" with
       | r :: _ => (some ("'" ++ r.title ++ "' has " ++ r.pages ++ " pages."), ["dune"])
       | [] => (some ("Sorry, I couldn’t find page count for 'dune'."), ["dune"])).1 = _
    cases find_by_field catalog BookRecord.title "dune" <;> rfl
  show (route "book_page" [("book_title", "Dune")] catalog rng).map
      (fun t => translate_back o.back t (safe_detect_language o.det q)) = _
  rw [hdet, hr]
  rfl

/-- C6, witness: the amended theorem at a catalog containing "Dune" and at
one without it. -/
theorem C6_book_page_end_to_end_witness :
    webhook enOracles [bookA, bookB] 0
        ⟨"q", "book_page", [("book_title", "Dune")]⟩ =
      some "'Dune' has 412 pages." ∧
    webhook enOracles [bookA] 0
        ⟨"q", "book_page", [("book_title", "Dune")]⟩ =
      some "Sorry, I couldn’t find page count for 'dune'." := by
  constructor
  · have h := C6_book_page_end_to_end enOracles [bookA, bookB] 0 "q" (by decide)
    rw [h]; decide
  · have h := C6_book_page_end_to_end enOracles [bookA] 0 "q" (by decide)
    rw [h]; decide

/-! ## Claim about the top-rated listing (spec-modelled) -/

/-- C7: the top-rated listing ranks the catalog by `top_n_by_rating(5)` —
descending by rating with unparseable ratings lowest (`⊥` key), a stable
sort so ties keep catalog order, returning all records when fewer than 5 —
and renders one leaderboard line (title, author, rating) per entry; an
empty catalog gives the explicit "dataset is empty" report rather than a
crash. -/
theorem C7_top_rated (c : List BookRecord) :
    topRatedResponse [] = "The dataset is empty." ∧
    List.Sorted ratingGe (top_n_by_rating 5 c) ∧
    (c.length < 5 → (top_n_by_rating 5 c).Perm c) ∧
    (List.Sorted ratingGe c → top_n_by_rating 5 c = c.take 5) ∧
    (c ≠ [] → topRatedResponse c =
      joinNL ((top_n_by_rating 5 c).map topRatedLine)) := by
  refine ⟨rfl, ?_, ?_, ?_, ?_⟩
  · exact List.Pairwise.sublist (List.take_sublist 5 _)
      (List.sorted_insertionSort ratingGe c)
  · intro h
    unfold top_n_by_rating
    rw [List.take_of_length_le]
    · exact List.perm_insertionSort ratingGe c
    · rw [List.length_insertionSort]
      omega
  · intro h
    unfold top_n_by_rating
    rw [List.Sorted.insertionSort_eq h]
  · intro h
    cases c with
    | nil => exact absurd rfl h
    | cons a t => rfl

/-- C7, witness: on a 3-record catalog the listing permutes the whole
catalog (fewer than 5 records), sorted 4.5, 4.0, then the unparseable
rating last. -/
theorem C7_top_rated_witness :
    (top_n_by_rating 5 [bookA, bookB, bookC]).Perm [bookA, bookB, bookC] :=
  (C7_top_rated [bookA, bookB, bookC]).2.2.1 (by decide)

/-! ## Claim about totality of the request handler -/

/-- `sample(1)` succeeds exactly on a non-empty catalog. -/
lemma sampleOne_isSome (catalog : List BookRecord) (rng : Nat)
    (h : catalog ≠ []) : (sampleOne catalog rng).isSome = true := by
  unfold sampleOne
  have hl : 0 < catalog.length := List.length_pos.mpr h
  rw [List.getElem?_eq_getElem (Nat.mod_lt _ hl)]
  rfl

/-- On a non-empty catalog every branch of the router answers. -/
lemma route_isSome_of_nonempty (intent : String)
    (params : List (String × String)) (catalog : List BookRecord) (rng : Nat)
    (h : catalog ≠ []) : (route intent params catalog rng).isSome = true := by
  have hs : ∀ f : BookRecord → String,
      ((sampleOne catalog rng).map f).isSome = true := by
    intro f
    rcases hx : sampleOne catalog rng with _ | b
    · have hsome := sampleOne_isSome catalog rng h
      rw [hx] at hsome
      simp at hsome
    · rfl
  unfold route routeT
  split <;> (dsimp only; repeat' split) <;> first | rfl | apply hs

/-- Away from `search_book`, the router answers even on an empty
catalog. -/
lemma route_isSome_of_ne (intent : String)
    (params : List (String × String)) (catalog : List BookRecord) (rng : Nat)
    (hne : intent ≠ "search_book") :
    (route intent params catalog rng).isSome = true := by
  unfold route routeT
  split <;>
    first
      | rfl
      | (exact absurd rfl hne)
      | ((dsimp only; repeat' split) <;> rfl)

/-- C8, counterexample: a `search_book` request against an empty catalog
reaches `books_df.sample(1)`, which raises `ValueError` on an empty
dataframe — the handler dies instead of producing a textual response. -/
theorem C8_counterexample :
    webhook failingOracles [] 0 ⟨"recommend me a book", "search_book", []⟩ =
      none := by
  decide

/-- C8 (amended): the handler produces a textual response for every
request against a non-empty catalog, and for every request whose intent
is not `search_book` even against an empty catalog; the one fatal path is
`search_book` reaching the random-sample fallback on an empty catalog. -/
theorem C8_total_response :
    (∀ (o : Oracles) (catalog : List BookRecord) (rng : Nat)
        (req : WebhookRequest),
      catalog ≠ [] → (webhook o catalog rng req).isSome = true) ∧
    (∀ (o : Oracles) (rng : Nat) (req : WebhookRequest),
      req.intentName ≠ "search_book" →
        (webhook o [] rng req).isSome = true) := by
  constructor
  · intro o catalog rng req h
    show ((route req.intentName req.parameters catalog rng).map _).isSome = true
    rcases hr : route req.intentName req.parameters catalog rng with _ | t
    · have hsome := route_isSome_of_nonempty req.intentName req.parameters catalog rng h
      rw [hr] at hsome
      simp at hsome
    · rfl
  · intro o rng req h
    show ((route req.intentName req.parameters [] rng).map _).isSome = true
    rcases hr : route req.intentName req.parameters [] rng with _ | t
    · have hsome := route_isSome_of_ne req.intentName req.parameters [] rng h
      rw [hr] at hsome
      simp at hsome
    · rfl

/-- C8, witness: the amended theorem at an unrecognized intent on a
non-empty catalog and at a `book_page` lookup on an empty catalog. -/
theorem C8_total_response_witness :
    (webhook failingOracles [bookA] 0 ⟨"hi", "unknown_intent", []⟩).isSome = true ∧
    (webhook failingOracles [] 0
      ⟨"pages?", "book_page", [("book_title", "Dune")]⟩).isSome = true := by
  constructor
  · exact C8_total_response.1 failingOracles [bookA] 0 _ (by decide)
  · exact C8_total_response.2 failingOracles 0
      ⟨"pages?", "book_page", [("book_title", "Dune")]⟩ (by decide)

/-! ## Claim that routing is a pure function of (intent, parameters) -/

/-- C9, counterexample: the `search_book` fallback draws from ambient
randomness, so two invocations with the same intent, parameter map and
catalog can render different texts (here: different sample draws). -/
theorem C9_counterexample :
    (webhookTrace failingOracles [bookA, bookB] 0
        ⟨"q", "search_book", []⟩).rendered ≠
    (webhookTrace failingOracles [bookA, bookB] 1
        ⟨"q", "search_book", []⟩).rendered := by
  decide

/-- C9 (amended): given the same randomness draw, the rendered response
text (before back-translation) is a function of (intent name, parameter
map, catalog) alone: it is independent of the raw query text, of its
translation, and of every external oracle. -/
theorem C9_routing_pure (o o2 : Oracles) (catalog : List BookRecord)
    (rng : Nat) (r1 r2 : WebhookRequest)
    (hi : r1.intentName = r2.intentName)
    (hp : r1.parameters = r2.parameters) :
    (webhookTrace o catalog rng r1).rendered =
      (webhookTrace o2 catalog rng r2).rendered := by
  show route r1.intentName r1.parameters catalog rng =
    route r2.intentName r2.parameters catalog rng
  rw [hi, hp]

/-- C9, witness: two invocations differing in query text and oracles
render the same text. -/
theorem C9_routing_pure_witness :
    (webhookTrace failingOracles [bookA] 0 ⟨"hola", "greet", []⟩).rendered =
      (webhookTrace enOracles [bookA] 0 ⟨"bonjour", "greet", []⟩).rendered :=
  C9_routing_pure failingOracles enOracles [bookA] 0
    ⟨"hola", "greet", []⟩ ⟨"bonjour", "greet", []⟩ rfl rfl

/-! ## Claim about blank titles in the field-specific lookups -/

/-- C10: for every single-fact lookup intent, a blank (or absent)
`book_title` parameter is passed as the empty needle to the substring
match, which matches every record, and the response renders the requested
fact of the first record in catalog order; no "please provide a title"
branch exists for these intents. -/
theorem C10_blank_title_first_record (params : List (String × String))
    (r : BookRecord) (rest : List BookRecord) (rng : Nat)
    (h : getParam params "book_title" = "") :
    route "book_page" params (r :: rest) rng =
      some ("'" ++ r.title ++ "' has " ++ r.pages ++ " pages.") ∧
    route "get_book_genre" params (r :: rest) rng =
      some ("'" ++ r.title ++ "' belongs to the " ++ r.genre ++ " genre.") ∧
    route "book_description" params (r :: rest) rng =
      some ("'" ++ r.title ++ "' description: " ++ r.description) ∧
    route "published_date" params (r :: rest) rng =
      some ("'" ++ r.title ++ "' was published on " ++ r.published_date ++ ".") ∧
    route "publisher" params (r :: rest) rng =
      some ("The publisher of '" ++ r.title ++ "' is " ++ r.publisher ++ ".") ∧
    route "average_rating" params (r :: rest) rng =
      some ("'" ++ r.title ++ "' has an average rating of " ++
        r.average_rating ++ ".") ∧
    route "thumbnail" params (r :: rest) rng =
      some ("Here is the cover of '" ++ r.title ++ "': " ++ r.thumbnail) ∧
    storeNeedles "book_page" params (r :: rest) rng = [""] := by
  have ht : pyLower (getParam params "book_title") = "" := by rw [h]; rfl
  refine ⟨?_, ?_, ?_, ?_, ?_, ?_, ?_, ?_⟩
  · show (routeT "book_page" params (r :: rest) rng).1 = _
    rw [routeT_book_page, ht, find_by_field_empty_needle]
  · show (routeT "get_book_genre" params (r :: rest) rng).1 = _
    rw [routeT_get_book_genre, ht, find_by_field_empty_needle]
  · show (routeT "book_description" params (r :: rest) rng).1 = _
    rw [routeT_book_description, ht, find_by_field_empty_needle]
  · show (routeT "published_date" params (r :: rest) rng).1 = _
    rw [routeT_published_date, ht, find_by_field_empty_needle]
  · show (routeT "publisher" params (r :: rest) rng).1 = _
    rw [routeT_publisher, ht, find_by_field_empty_needle]
  · show (routeT "average_rating" params (r :: rest) rng).1 = _
    rw [routeT_average_rating, ht, find_by_field_empty_needle]
  · show (routeT "thumbnail" params (r :: rest) rng).1 = _
    rw [routeT_thumbnail, ht, find_by_field_empty_needle]
  · show (routeT "book_page" params (r :: rest) rng).2 = _
    rw [routeT_book_page, ht, find_by_field_empty_needle]

/-- C10, witness: a `book_page` request with no parameters against a
two-record catalog reports the page count of the first record. -/
theorem C10_blank_title_first_record_witness :
    route "book_page" [] [bookA, bookB] 0 = some "'Emma' has 474 pages." := by
  have h := (C10_blank_title_first_record [] bookA [bookB] 0 rfl).1
  rw [h]; decide

end ReadingChatbot
